import Mathlib

/-!
Shallow embedding of the high-resolution timed-sleep subsystem of the
MinGW compatibility-function repository (`src/clock_nanosleep.c`):
the `timespec` arithmetic helpers `timersub` / `timeradd`, the
capability probe `haveHighResTimer` (with a model of C `atoi`), and
the dispatcher `clock_nanosleep`, modelled over an explicit
environment that supplies the results of the host collaborators
(`nanosleep`, `clock_gettime`, the registry read, and the
waitable-timer create/arm/wait primitives).
-/

/-- `struct timespec`: seconds (`time_t`) and nanoseconds (`long`),
both signed; modelled as unbounded `Int`. -/
structure timespec where
  tv_sec : Int
  tv_nsec : Int
deriving DecidableEq, Repr

/-- `#define POW10_9 1000000000` -/
def POW10_9 : Int := 1000000000

/-- `#define DELTA_EPOCH_IN_100NS 116444736000000000LL` -/
def DELTA_EPOCH_IN_100NS : Int := 116444736000000000

/-- `#define Win2004_BUILD_NUMBER 19041` -/
def Win2004_BUILD_NUMBER : Int := 19041

/-- `timersub` (`clock_nanosleep.c` lines 56-66): field-wise
difference, then one conditional borrow of `10^9` nanoseconds when the
nanosecond difference is negative. -/
def timersub (a b : timespec) : timespec :=
  if a.tv_nsec - b.tv_nsec < 0 then
    { tv_sec := a.tv_sec - b.tv_sec - 1,
      tv_nsec := a.tv_nsec - b.tv_nsec + POW10_9 }
  else
    { tv_sec := a.tv_sec - b.tv_sec,
      tv_nsec := a.tv_nsec - b.tv_nsec }

/-- `timeradd` (`clock_nanosleep.c` lines 68-78): field-wise sum, then
one conditional carry of `10^9` nanoseconds when the nanosecond sum
reaches `10^9`. -/
def timeradd (a b : timespec) : timespec :=
  if a.tv_nsec + b.tv_nsec ≥ POW10_9 then
    { tv_sec := a.tv_sec + b.tv_sec + 1,
      tv_nsec := a.tv_nsec + b.tv_nsec - POW10_9 }
  else
    { tv_sec := a.tv_sec + b.tv_sec,
      tv_nsec := a.tv_nsec + b.tv_nsec }

/-- Total nanosecond value of a `timespec`; used to state ordering
between durations. -/
def toNs (a : timespec) : Int :=
  a.tv_sec * POW10_9 + a.tv_nsec

/-- The nanosecond field is in range: `0 ≤ tv_nsec < 10^9`. -/
def nsecNormalized (a : timespec) : Prop :=
  0 ≤ a.tv_nsec ∧ a.tv_nsec < POW10_9

instance (a : timespec) : Decidable (nsecNormalized a) := by
  unfold nsecNormalized; infer_instance

/-- POSIX-style error codes the shim itself assigns, plus a
constructor for codes left behind by delegated host primitives. -/
inductive Errno where
  | EINVAL
  | ENOTSUP
  | hostError (code : Int)
deriving DecidableEq, Repr

/-- Result of one call to the delegated relative-sleep primitive
`nanosleep(request, remain)`: its return value, the errno it leaves
(if any), and what it writes through the `remain` pointer (if one was
passed and it wrote). -/
structure NanosleepResult where
  ret : Int
  errnoSet : Option Errno
  remainWritten : Option timespec
deriving DecidableEq, Repr

/-- Environment of host collaborators for one `clock_nanosleep` call:
the delegated `nanosleep` behaviour, the wall-clock and the two
monotonic clock readings, the raw registry buffer (or `none` when
`RegGetValueA` fails), and the success of the waitable-timer
create/arm/wait steps. -/
structure Env where
  nanosleep : timespec → Bool → NanosleepResult
  realtimeNow : timespec
  monoStart : timespec
  monoEnd : timespec
  regRead : Option (List Char)
  createOk : Bool
  setOk : Bool
  waitSignaled : Bool

/-- C `isspace` on the characters `atoi` skips. -/
def isSpaceC (c : Char) : Bool :=
  c == ' ' || c == '\t' || c == '\n' || c == '\x0b' || c == '\x0c' || c == '\r'

/-- Digit-accumulation loop of C `atoi`: consume leading digits,
stop at the first non-digit. -/
def atoiLoop : List Char → Int → Int
  | [], acc => acc
  | c :: cs, acc =>
    if c.isDigit then atoiLoop cs (acc * 10 + ((c.toNat : Int) - ('0'.toNat : Int)))
    else acc

/-- C `atoi`: skip whitespace, read an optional sign, then the longest
leading digit run; an empty digit run yields `0`. -/
def atoi (s : List Char) : Int :=
  match s.dropWhile isSpaceC with
  | '-' :: rest => - atoiLoop rest 0
  | '+' :: rest => atoiLoop rest 0
  | rest => atoiLoop rest 0

/-- `haveHighResTimer` (`clock_nanosleep.c` lines 98-113): read the
`CurrentBuildNumber` registry value; on success parse it with `atoi`
and compare against `Win2004_BUILD_NUMBER`; on failure return
`false`. -/
def haveHighResTimer (env : Env) : Bool :=
  match env.regRead with
  | some bn => decide (atoi bn ≥ Win2004_BUILD_NUMBER)
  | none => false

/-- Observable outcome of one `clock_nanosleep` call: return value,
errno assignment, what (if anything) the call writes through `remain`,
the duration (if any) it passes to the delegated `nanosleep`, how many
timer objects it created and closed, whether it ran the capability
probe (and that probe's answer), and the due time (if any) it passed
to `SetWaitableTimer`. -/
structure Effects where
  ret : Int
  errnoSet : Option Errno
  remainOut : Option timespec
  nanosleepCall : Option timespec
  timersCreated : Nat
  timersClosed : Nat
  highResProbe : Option Bool
  armedDue : Option Int
deriving DecidableEq, Repr

/-- `CLOCK_REALTIME` (value from winpthreads `pthread_time.h`). -/
def CLOCK_REALTIME : Int := 0

/-- `CLOCK_MONOTONIC` (value from winpthreads `pthread_time.h`). -/
def CLOCK_MONOTONIC : Int := 1

/-- Outcome of `lc_set_errno(EINVAL)` exits: return `-1`, set errno to
`EINVAL`, touch nothing else. -/
def einvalEffects : Effects :=
  { ret := -1, errnoSet := some .EINVAL, remainOut := none,
    nanosleepCall := none, timersCreated := 0, timersClosed := 0,
    highResProbe := none, armedDue := none }

/-- `return nanosleep(d, remain)`: delegate to the relative-sleep
primitive and propagate its return value, errno and `remain` write. -/
def runNanosleep (env : Env) (d : timespec) (remainPtr : Bool) : Effects :=
  { ret := (env.nanosleep d remainPtr).ret,
    errnoSet := (env.nanosleep d remainPtr).errnoSet,
    remainOut := (env.nanosleep d remainPtr).remainWritten,
    nanosleepCall := some d, timersCreated := 0, timersClosed := 0,
    highResProbe := none, armedDue := none }

/-- Due-time computation (`clock_nanosleep.c` lines 157-164): convert
the request to signed 100 ns ticks with C (truncating) division;
negate it for relative mode (`flags == 0`), add the epoch delta for
absolute mode. -/
def dueTime (flags : Int) (request : timespec) : Int :=
  if flags = 0 then
    -(Int.tdiv (request.tv_sec * POW10_9 + request.tv_nsec) 100)
  else
    Int.tdiv (request.tv_sec * POW10_9 + request.tv_nsec) 100 + DELTA_EPOCH_IN_100NS

/-- The `CLOCK_MONOTONIC` waitable-timer branch after argument
validation (`clock_nanosleep.c` lines 155-210): probe the capability,
create the timer (failure exits with `ENOTSUP` and no handle to
close), arm it and wait (each failure records `ENOTSUP`), close the
handle, then — whenever a `remain` pointer was passed — write
`request - (monoEnd - monoStart)` clamped at zero. -/
def monotonicSleep (env : Env) (flags : Int) (request : timespec)
    (remainPtr : Bool) : Effects :=
  if env.createOk = false then
    { ret := -1, errnoSet := some .ENOTSUP, remainOut := none,
      nanosleepCall := none, timersCreated := 0, timersClosed := 0,
      highResProbe := some (haveHighResTimer env), armedDue := none }
  else
    { ret := if env.setOk = false then -1
             else if env.waitSignaled = false then -1 else 0,
      errnoSet := if env.setOk = false then some .ENOTSUP
                  else if env.waitSignaled = false then some .ENOTSUP else none,
      remainOut :=
        if remainPtr then
          some (if (timersub request (timersub env.monoEnd env.monoStart)).tv_sec < 0
                then { tv_sec := 0, tv_nsec := 0 }
                else timersub request (timersub env.monoEnd env.monoStart))
        else none,
      nanosleepCall := none, timersCreated := 1, timersClosed := 1,
      highResProbe := some (haveHighResTimer env),
      armedDue := some (dueTime flags request) }

/-- `clock_nanosleep` (`clock_nanosleep.c` lines 126-215). The
`remainPtr` flag models whether the caller passed a non-null `remain`
pointer. On `CLOCK_REALTIME` with nonzero flags the relative duration
is computed by the inline field-wise subtraction of lines 142-147 (not
by calling `timersub`). -/
def clock_nanosleep (env : Env) (clock_id flags : Int) (request : timespec)
    (remainPtr : Bool) : Effects :=
  if clock_id = CLOCK_REALTIME then
    if flags = 0 then
      runNanosleep env request remainPtr
    else
      runNanosleep env
        (if request.tv_nsec - env.realtimeNow.tv_nsec < 0 then
          { tv_sec := request.tv_sec - env.realtimeNow.tv_sec - 1,
            tv_nsec := request.tv_nsec - env.realtimeNow.tv_nsec + POW10_9 }
         else
          { tv_sec := request.tv_sec - env.realtimeNow.tv_sec,
            tv_nsec := request.tv_nsec - env.realtimeNow.tv_nsec })
        remainPtr
  else if clock_id = CLOCK_MONOTONIC then
    if request.tv_sec < 0 ∨ request.tv_nsec < 0 ∨ POW10_9 ≤ request.tv_nsec then
      einvalEffects
    else
      monotonicSleep env flags request remainPtr
  else
    einvalEffects

/-! ### Helper lemmas shared by the claim theorems -/

theorem toNs_timersub (a b : timespec) : toNs (timersub a b) = toNs a - toNs b := by
  unfold timersub toNs POW10_9
  split <;> simp <;> ring

theorem nsecNormalized_timersub {a b : timespec}
    (ha : nsecNormalized a) (hb : nsecNormalized b) :
    nsecNormalized (timersub a b) := by
  obtain ⟨ha0, ha1⟩ := ha
  obtain ⟨hb0, hb1⟩ := hb
  unfold timersub nsecNormalized POW10_9 at *
  split <;> constructor <;> simp_all <;> omega

theorem nsecNormalized_timeradd {a b : timespec}
    (ha : nsecNormalized a) (hb : nsecNormalized b) :
    nsecNormalized (timeradd a b) := by
  obtain ⟨ha0, ha1⟩ := ha
  obtain ⟨hb0, hb1⟩ := hb
  unfold timeradd nsecNormalized POW10_9 at *
  split <;> constructor <;> simp_all <;> omega

theorem toNs_nonneg_sec {a : timespec} (h : nsecNormalized a)
    (h0 : 0 < toNs a) : 0 ≤ a.tv_sec := by
  obtain ⟨h1, h2⟩ := h
  unfold toNs POW10_9 at *
  nlinarith

theorem toNs_zero_eq {a : timespec} (h : nsecNormalized a)
    (hs : 0 ≤ a.tv_sec) (h0 : toNs a ≤ 0) : a = { tv_sec := 0, tv_nsec := 0 } := by
  obtain ⟨h1, h2⟩ := h
  unfold toNs POW10_9 at *
  obtain ⟨s, n⟩ := a
  simp only [timespec.mk.injEq]
  constructor <;> nlinarith

theorem monotonicSleep_errno_ne (env : Env) (flags : Int) (request : timespec)
    (remainPtr : Bool) :
    (monotonicSleep env flags request remainPtr).errnoSet ≠ some Errno.EINVAL := by
  unfold monotonicSleep
  split_ifs <;> simp

theorem clock_nanosleep_monotonic_valid (env : Env) (flags : Int)
    (request : timespec) (remainPtr : Bool)
    (h : ¬(request.tv_sec < 0 ∨ request.tv_nsec < 0 ∨ POW10_9 ≤ request.tv_nsec)) :
    clock_nanosleep env CLOCK_MONOTONIC flags request remainPtr =
      monotonicSleep env flags request remainPtr := by
  unfold clock_nanosleep
  rw [if_neg (by decide), if_pos rfl, if_neg h]

theorem monotonicSleep_remainOut (env : Env) (flags : Int) (request : timespec)
    (hc : env.createOk = true) :
    (monotonicSleep env flags request true).remainOut =
      some (if (timersub request (timersub env.monoEnd env.monoStart)).tv_sec < 0
            then { tv_sec := 0, tv_nsec := 0 }
            else timersub request (timersub env.monoEnd env.monoStart)) := by
  unfold monotonicSleep
  rw [if_neg (by simp [hc])]
  simp

/-! ### Claim theorems -/

/-- C2 counterexample: the claim quantifies over all `timespec`
inputs, including non-normalized ones; on `a = {0, 0}` and
`b = {0, 2*10^9}` the single borrow of `timersub` leaves a negative
nanosecond field. -/
theorem claim_C2_counterexample :
    ¬ nsecNormalized (timersub { tv_sec := 0, tv_nsec := 0 }
                               { tv_sec := 0, tv_nsec := 2000000000 }) := by
  decide

/-- C2 (amended): for inputs whose nanosecond fields are normalized
(`0 ≤ tv_nsec < 10^9`; the second fields may be arbitrary, negative
included), `timersub` and `timeradd` both produce a result with a
normalized nanosecond field. -/
theorem claim_C2_amended (a b : timespec)
    (ha : nsecNormalized a) (hb : nsecNormalized b) :
    nsecNormalized (timersub a b) ∧ nsecNormalized (timeradd a b) :=
  ⟨nsecNormalized_timersub ha hb, nsecNormalized_timeradd ha hb⟩

theorem claim_C2_witness :
    nsecNormalized (timersub { tv_sec := 5, tv_nsec := 100 }
                             { tv_sec := -3, tv_nsec := 999999999 }) ∧
    nsecNormalized (timeradd { tv_sec := 5, tv_nsec := 100 }
                             { tv_sec := -3, tv_nsec := 999999999 }) :=
  claim_C2_amended { tv_sec := 5, tv_nsec := 100 }
    { tv_sec := -3, tv_nsec := 999999999 } (by decide) (by decide)

/-- C3: for all `timespec` values `a`, `b` with normalized nanosecond
fields, `timeradd (timersub a b) b = a`. -/
theorem claim_C3 (a b : timespec)
    (ha : nsecNormalized a) (hb : nsecNormalized b) :
    timeradd (timersub a b) b = a := by
  obtain ⟨ha0, ha1⟩ := ha
  obtain ⟨hb0, hb1⟩ := hb
  obtain ⟨as, an⟩ := a
  obtain ⟨bs, bn⟩ := b
  unfold timersub timeradd POW10_9 at *
  simp only at *
  split_ifs <;> simp_all [timespec.mk.injEq] <;> omega

theorem claim_C3_witness :
    timeradd (timersub { tv_sec := 2, tv_nsec := 5 }
                       { tv_sec := 7, tv_nsec := 999999999 })
             { tv_sec := 7, tv_nsec := 999999999 } =
      { tv_sec := 2, tv_nsec := 5 } :=
  claim_C3 { tv_sec := 2, tv_nsec := 5 } { tv_sec := 7, tv_nsec := 999999999 }
    (by decide) (by decide)

/-- Concrete environment for witnesses: all collaborators succeed, the
registry reports build 19041, and the monotonic clock advances by
200000 ns across the wait. -/
def envW : Env :=
  { nanosleep := fun d _ => { ret := 0, errnoSet := none, remainWritten := some d },
    realtimeNow := { tv_sec := 1000, tv_nsec := 500000000 },
    monoStart := { tv_sec := 50, tv_nsec := 0 },
    monoEnd := { tv_sec := 50, tv_nsec := 200000 },
    regRead := some ['1', '9', '0', '4', '1'],
    createOk := true, setOk := true, waitSignaled := true }

/-- `envW` with a failing `SetWaitableTimer` (arming failure). -/
def envSetFail : Env := { envW with setOk := false }

/-- `envW` with a failing registry read. -/
def envRegFail : Env := { envW with regRead := none }

/-- C1: an invalid clock id, or `CLOCK_MONOTONIC` with a
non-normalized or negative request, returns `-1` with errno `EINVAL`
and no other effect (no timer created, `remain` not written, nothing
delegated); for `CLOCK_MONOTONIC` with a normalized non-negative
request the `EINVAL` check does not fire. -/
theorem claim_C1 (env : Env) (clock_id flags : Int) (request : timespec)
    (remainPtr : Bool) :
    (clock_id ≠ CLOCK_REALTIME → clock_id ≠ CLOCK_MONOTONIC →
      clock_nanosleep env clock_id flags request remainPtr = einvalEffects) ∧
    ((request.tv_sec < 0 ∨ request.tv_nsec < 0 ∨ POW10_9 ≤ request.tv_nsec) →
      clock_nanosleep env CLOCK_MONOTONIC flags request remainPtr = einvalEffects) ∧
    (0 ≤ request.tv_sec → 0 ≤ request.tv_nsec → request.tv_nsec < POW10_9 →
      (clock_nanosleep env CLOCK_MONOTONIC flags request remainPtr).errnoSet ≠
        some Errno.EINVAL) := by
  refine ⟨?_, ?_, ?_⟩
  · intro h1 h2
    unfold clock_nanosleep
    rw [if_neg h1, if_neg h2]
  · intro h
    unfold clock_nanosleep
    rw [if_neg (by decide), if_pos rfl, if_pos h]
  · intro h1 h2 h3
    rw [clock_nanosleep_monotonic_valid env flags request remainPtr (by omega)]
    exact monotonicSleep_errno_ne env flags request remainPtr

theorem claim_C1_witness :
    clock_nanosleep envW 7 0 { tv_sec := 0, tv_nsec := 0 } true = einvalEffects ∧
    clock_nanosleep envW CLOCK_MONOTONIC 0 { tv_sec := -1, tv_nsec := 0 } true =
      einvalEffects ∧
    (clock_nanosleep envW CLOCK_MONOTONIC 0 { tv_sec := 0, tv_nsec := 1000000 }
        true).errnoSet ≠ some Errno.EINVAL :=
  ⟨(claim_C1 envW 7 0 { tv_sec := 0, tv_nsec := 0 } true).1
      (by decide) (by decide),
   (claim_C1 envW CLOCK_MONOTONIC 0 { tv_sec := -1, tv_nsec := 0 } true).2.1
      (by decide),
   (claim_C1 envW CLOCK_MONOTONIC 0 { tv_sec := 0, tv_nsec := 1000000 } true).2.2
      (by decide) (by decide) (by decide)⟩

/-- C4: on the monotonic path with a `remain` pointer, when elapsed
(`monoEnd - monoStart` via `timersub`) is at least the request, the
written remaining time is exactly `{0, 0}`; otherwise it is
`timersub request elapsed`, which is normalized with a non-negative
seconds field. -/
theorem claim_C4 (env : Env) (flags : Int) (request : timespec)
    (hsec : 0 ≤ request.tv_sec) (hreq : nsecNormalized request)
    (hs : nsecNormalized env.monoStart) (he : nsecNormalized env.monoEnd)
    (hc : env.createOk = true) :
    (toNs request ≤ toNs (timersub env.monoEnd env.monoStart) →
      (clock_nanosleep env CLOCK_MONOTONIC flags request true).remainOut =
        some { tv_sec := 0, tv_nsec := 0 }) ∧
    (toNs (timersub env.monoEnd env.monoStart) < toNs request →
      (clock_nanosleep env CLOCK_MONOTONIC flags request true).remainOut =
        some (timersub request (timersub env.monoEnd env.monoStart)) ∧
      0 ≤ (timersub request (timersub env.monoEnd env.monoStart)).tv_sec ∧
      nsecNormalized (timersub request (timersub env.monoEnd env.monoStart))) := by
  have hval : ¬(request.tv_sec < 0 ∨ request.tv_nsec < 0 ∨
      POW10_9 ≤ request.tv_nsec) := by
    obtain ⟨h1, h2⟩ := hreq; omega
  have hrw := clock_nanosleep_monotonic_valid env flags request true hval
  have hout := monotonicSleep_remainOut env flags request hc
  have helN : nsecNormalized (timersub env.monoEnd env.monoStart) :=
    nsecNormalized_timersub he hs
  have hremN : nsecNormalized (timersub request (timersub env.monoEnd env.monoStart)) :=
    nsecNormalized_timersub hreq helN
  have hremNs : toNs (timersub request (timersub env.monoEnd env.monoStart)) =
      toNs request - toNs (timersub env.monoEnd env.monoStart) :=
    toNs_timersub request (timersub env.monoEnd env.monoStart)
  constructor
  · intro hge
    rw [hrw, hout]
    by_cases hneg : (timersub request (timersub env.monoEnd env.monoStart)).tv_sec < 0
    · rw [if_pos hneg]
    · rw [if_neg hneg]
      rw [toNs_zero_eq hremN (le_of_not_lt hneg) (by omega)]
  · intro hlt
    have hpos : 0 < toNs (timersub request (timersub env.monoEnd env.monoStart)) := by
      omega
    have hnn : 0 ≤ (timersub request (timersub env.monoEnd env.monoStart)).tv_sec :=
      toNs_nonneg_sec hremN hpos
    refine ⟨?_, hnn, hremN⟩
    rw [hrw, hout, if_neg (not_lt.mpr hnn)]

theorem claim_C4_witness :
    (toNs (timersub envW.monoEnd envW.monoStart) <
      toNs { tv_sec := 0, tv_nsec := 1000000 }) ∧
    (clock_nanosleep envW CLOCK_MONOTONIC 0 { tv_sec := 0, tv_nsec := 1000000 }
        true).remainOut =
      some (timersub { tv_sec := 0, tv_nsec := 1000000 }
                     (timersub envW.monoEnd envW.monoStart)) :=
  ⟨by decide,
   ((claim_C4 envW 0 { tv_sec := 0, tv_nsec := 1000000 }
      (by decide) (by decide) (by decide) (by decide) (by decide)).2
      (by decide)).1⟩

/-- C5 counterexample: on an arming failure (`SetWaitableTimer`
fails, errno `ENOTSUP`) the code still writes `remain` — the
`if (remain)` block at lines 200-208 runs on every exit from the
created-timer branch, so `remain` is not left unwritten. -/
theorem claim_C5_counterexample :
    (clock_nanosleep envSetFail CLOCK_MONOTONIC 0
        { tv_sec := 0, tv_nsec := 1000000 } true).errnoSet =
      some Errno.ENOTSUP ∧
    (clock_nanosleep envSetFail CLOCK_MONOTONIC 0
        { tv_sec := 0, tv_nsec := 1000000 } true).remainOut =
      some { tv_sec := 0, tv_nsec := 800000 } := by
  decide

/-- C5 (amended): on the monotonic path with a valid request and a
`remain` pointer, `remain` is written exactly when timer creation
succeeds — regardless of the arming or wait outcome — and is never
written when no pointer is supplied. -/
theorem claim_C5_amended (env : Env) (flags : Int) (request : timespec)
    (hsec : 0 ≤ request.tv_sec) (hreq : nsecNormalized request) :
    ((clock_nanosleep env CLOCK_MONOTONIC flags request true).remainOut ≠ none ↔
      env.createOk = true) ∧
    (clock_nanosleep env CLOCK_MONOTONIC flags request false).remainOut = none := by
  have hval : ¬(request.tv_sec < 0 ∨ request.tv_nsec < 0 ∨
      POW10_9 ≤ request.tv_nsec) := by
    obtain ⟨h1, h2⟩ := hreq; omega
  rw [clock_nanosleep_monotonic_valid env flags request true hval,
    clock_nanosleep_monotonic_valid env flags request false hval]
  unfold monotonicSleep
  cases hcr : env.createOk <;> simp [hcr]

theorem claim_C5_witness :
    ((clock_nanosleep envSetFail CLOCK_MONOTONIC 0
        { tv_sec := 0, tv_nsec := 1000000 } true).remainOut ≠ none ↔
      envSetFail.createOk = true) ∧
    (clock_nanosleep envSetFail CLOCK_MONOTONIC 0
        { tv_sec := 0, tv_nsec := 1000000 } false).remainOut = none :=
  claim_C5_amended envSetFail 0 { tv_sec := 0, tv_nsec := 1000000 }
    (by decide) (by decide)

/-- C6: on the monotonic path with a valid request, whenever timer
creation succeeds the call both creates and closes exactly one timer
handle, for every combination of arming and wait outcomes. -/
theorem claim_C6 (env : Env) (flags : Int) (request : timespec) (remainPtr : Bool)
    (hsec : 0 ≤ request.tv_sec) (hreq : nsecNormalized request)
    (hc : env.createOk = true) :
    (clock_nanosleep env CLOCK_MONOTONIC flags request remainPtr).timersCreated = 1 ∧
    (clock_nanosleep env CLOCK_MONOTONIC flags request remainPtr).timersClosed = 1 := by
  have hval : ¬(request.tv_sec < 0 ∨ request.tv_nsec < 0 ∨
      POW10_9 ≤ request.tv_nsec) := by
    obtain ⟨h1, h2⟩ := hreq; omega
  rw [clock_nanosleep_monotonic_valid env flags request remainPtr hval]
  unfold monotonicSleep
  rw [if_neg (by simp [hc])]
  exact ⟨rfl, rfl⟩

theorem claim_C6_witness :
    (clock_nanosleep envSetFail CLOCK_MONOTONIC 0
        { tv_sec := 0, tv_nsec := 1000000 } false).timersCreated = 1 ∧
    (clock_nanosleep envSetFail CLOCK_MONOTONIC 0
        { tv_sec := 0, tv_nsec := 1000000 } false).timersClosed = 1 :=
  claim_C6 envSetFail 0 { tv_sec := 0, tv_nsec := 1000000 } false
    (by decide) (by decide) (by decide)

/-- C7: the due time armed on the monotonic path is
`t = (tv_sec * 10^9 + tv_nsec) tdiv 100` (truncating division); the
armed value is `-t` (non-positive) in relative mode and
`t + DELTA_EPOCH_IN_100NS` (positive) in absolute mode. -/
theorem claim_C7 (env : Env) (flags : Int) (request : timespec) (remainPtr : Bool)
    (hsec : 0 ≤ request.tv_sec) (hreq : nsecNormalized request)
    (hc : env.createOk = true) :
    (clock_nanosleep env CLOCK_MONOTONIC flags request remainPtr).armedDue =
      some (if flags = 0 then
              -(Int.tdiv (request.tv_sec * POW10_9 + request.tv_nsec) 100)
            else
              Int.tdiv (request.tv_sec * POW10_9 + request.tv_nsec) 100 +
                DELTA_EPOCH_IN_100NS) ∧
    (flags = 0 →
      -(Int.tdiv (request.tv_sec * POW10_9 + request.tv_nsec) 100) ≤ 0) ∧
    (flags ≠ 0 →
      0 < Int.tdiv (request.tv_sec * POW10_9 + request.tv_nsec) 100 +
        DELTA_EPOCH_IN_100NS) := by
  have hval : ¬(request.tv_sec < 0 ∨ request.tv_nsec < 0 ∨
      POW10_9 ≤ request.tv_nsec) := by
    obtain ⟨h1, h2⟩ := hreq; omega
  have hnum : 0 ≤ request.tv_sec * POW10_9 + request.tv_nsec := by
    obtain ⟨h1, h2⟩ := hreq
    have : 0 ≤ request.tv_sec * POW10_9 :=
      mul_nonneg hsec (by unfold POW10_9; omega)
    omega
  have ht : 0 ≤ Int.tdiv (request.tv_sec * POW10_9 + request.tv_nsec) 100 :=
    Int.tdiv_nonneg hnum (by omega)
  refine ⟨?_, fun _ => by omega, fun _ => by unfold DELTA_EPOCH_IN_100NS; omega⟩
  rw [clock_nanosleep_monotonic_valid env flags request remainPtr hval]
  unfold monotonicSleep
  rw [if_neg (by simp [hc])]
  unfold dueTime
  split_ifs <;> rfl

theorem claim_C7_witness :
    (clock_nanosleep envW CLOCK_MONOTONIC 0 { tv_sec := 0, tv_nsec := 1000000 }
        true).armedDue = some (-10000) ∧
    (clock_nanosleep envW CLOCK_MONOTONIC 1 { tv_sec := 0, tv_nsec := 1000000 }
        true).armedDue = some 116444736000010000 := by
  have h0 := (claim_C7 envW 0 { tv_sec := 0, tv_nsec := 1000000 } true
    (by decide) (by decide) (by decide)).1
  have h1 := (claim_C7 envW 1 { tv_sec := 0, tv_nsec := 1000000 } true
    (by decide) (by decide) (by decide)).1
  rw [h0, h1]
  constructor <;> decide

/-- C8: on the wall-clock absolute path, the inline field-wise
subtraction with a single conditional borrow (lines 142-147) passes to
the delegated `nanosleep` exactly `timersub request now`, for every
request and every wall-clock reading. -/
theorem claim_C8 (env : Env) (flags : Int) (request : timespec) (remainPtr : Bool)
    (hflags : flags ≠ 0) :
    (clock_nanosleep env CLOCK_REALTIME flags request remainPtr).nanosleepCall =
      some (timersub request env.realtimeNow) := by
  unfold clock_nanosleep
  rw [if_pos rfl, if_neg hflags]
  unfold runNanosleep timersub
  rfl

theorem claim_C8_witness :
    (clock_nanosleep envW CLOCK_REALTIME 1 { tv_sec := 3, tv_nsec := 100 }
        true).nanosleepCall =
      some (timersub { tv_sec := 3, tv_nsec := 100 } envW.realtimeNow) :=
  claim_C8 envW 1 { tv_sec := 3, tv_nsec := 100 } true (by decide)

/-- C9: the capability probe returns `true` exactly when the registry
read succeeds and the `atoi`-parsed build number is at least 19041;
whenever the read fails it returns `false`. -/
theorem claim_C9 (env : Env) :
    (haveHighResTimer env = true ↔
      ∃ bn, env.regRead = some bn ∧ atoi bn ≥ Win2004_BUILD_NUMBER) ∧
    (env.regRead = none → haveHighResTimer env = false) := by
  unfold haveHighResTimer
  cases h : env.regRead with
  | none => simp
  | some bn => simp [decide_eq_true_eq]

theorem claim_C9_witness :
    haveHighResTimer envW = true ∧ haveHighResTimer envRegFail = false :=
  ⟨(claim_C9 envW).1.mpr ⟨['1', '9', '0', '4', '1'], rfl, by decide⟩,
   (claim_C9 envRegFail).2 rfl⟩

/-- C10: the mode flags are never validated — the whole outcome
depends on `flags` only through the test `flags == 0`; `flags = 0`
delegates the request itself (relative) while any nonzero value takes
the absolute path on `CLOCK_REALTIME`, and on `CLOCK_MONOTONIC` a
valid request never yields `EINVAL`, whatever `flags` is. -/
theorem claim_C10 (env : Env) (clock_id flags fl2 : Int) (request : timespec)
    (remainPtr : Bool) :
    ((flags = 0 ↔ fl2 = 0) →
      clock_nanosleep env clock_id flags request remainPtr =
        clock_nanosleep env clock_id fl2 request remainPtr) ∧
    (flags = 0 →
      (clock_nanosleep env CLOCK_REALTIME flags request remainPtr).nanosleepCall =
        some request) ∧
    (flags ≠ 0 →
      (clock_nanosleep env CLOCK_REALTIME flags request remainPtr).nanosleepCall =
        some (timersub request env.realtimeNow)) ∧
    (0 ≤ request.tv_sec → 0 ≤ request.tv_nsec → request.tv_nsec < POW10_9 →
      (clock_nanosleep env CLOCK_MONOTONIC flags request remainPtr).errnoSet ≠
        some Errno.EINVAL) := by
  refine ⟨?_, ?_, ?_, ?_⟩
  · intro hiff
    by_cases h : flags = 0
    · have h2 : fl2 = 0 := hiff.mp h
      subst h; subst h2; rfl
    · have h2 : ¬ fl2 = 0 := fun hf => h (hiff.mpr hf)
      unfold clock_nanosleep monotonicSleep dueTime
      simp only [h, h2, if_false]
  · intro h
    subst h
    unfold clock_nanosleep
    rw [if_pos rfl, if_pos rfl]
    rfl
  · intro h
    unfold clock_nanosleep
    rw [if_pos rfl, if_neg h]
    unfold runNanosleep timersub
    rfl
  · intro h1 h2 h3
    rw [clock_nanosleep_monotonic_valid env flags request remainPtr (by omega)]
    exact monotonicSleep_errno_ne env flags request remainPtr

theorem claim_C10_witness :
    clock_nanosleep envW CLOCK_REALTIME 1 { tv_sec := 3, tv_nsec := 100 } true =
      clock_nanosleep envW CLOCK_REALTIME 2 { tv_sec := 3, tv_nsec := 100 } true ∧
    (clock_nanosleep envW CLOCK_REALTIME 0 { tv_sec := 3, tv_nsec := 100 }
        true).nanosleepCall = some { tv_sec := 3, tv_nsec := 100 } ∧
    (clock_nanosleep envW CLOCK_REALTIME 2 { tv_sec := 3, tv_nsec := 100 }
        true).nanosleepCall =
      some (timersub { tv_sec := 3, tv_nsec := 100 } envW.realtimeNow) ∧
    (clock_nanosleep envW CLOCK_MONOTONIC 5 { tv_sec := 3, tv_nsec := 100 }
        true).errnoSet ≠ some Errno.EINVAL :=
  ⟨(claim_C10 envW CLOCK_REALTIME 1 2 { tv_sec := 3, tv_nsec := 100 } true).1
      (by decide),
   (claim_C10 envW CLOCK_REALTIME 0 0 { tv_sec := 3, tv_nsec := 100 } true).2.1
      rfl,
   (claim_C10 envW CLOCK_REALTIME 2 2 { tv_sec := 3, tv_nsec := 100 } true).2.2.1
      (by decide),
   (claim_C10 envW CLOCK_MONOTONIC 5 5 { tv_sec := 3, tv_nsec := 100 } true).2.2.2
      (by decide) (by decide) (by decide)⟩
